import Mathlib

/-!
Shallow embedding of the PyBoy link-cable serial core
(`src/pyboy/core/serial.py`) and proofs about its behaviour.

The Python module implements the BGB link-cable protocol: an 8-byte
packet codec, a connection set-up path with address validation, a
receiver loop dispatching packets by kind to handlers, and a
cycle-driven `tick` state machine that shifts bits through the SB
register, paced by a 31-bit timestamp exchanged with the peer.

Mutable attributes of the `Serial` object become fields of
`SerialState`; the pending `queue.Queue` becomes a list (front =
next item returned by `get()`); a `tick` that would block on an
empty queue returns `none`; packets sent on the socket are returned
as values.
-/

namespace PyBoySerial

/-- `SERIAL_FREQ = 8192` (serial.py line 15). -/
def SERIAL_FREQ : Nat := 8192

/-- `CPU_FREQ = 4213440` (serial.py line 16). -/
def CPU_FREQ : Nat := 4213440

/-- `BGB_VERSION = (1, 4, 0)` (serial.py line 20). -/
def BGB_VERSION : Nat × Nat × Nat := (1, 4, 0)

/-- An 8-byte BGB packet, struct format `<4BI`: four unsigned bytes
followed by a little-endian unsigned 32-bit timestamp. -/
structure Packet where
  b1 : Nat
  b2 : Nat
  b3 : Nat
  b4 : Nat
  timestamp : Nat
deriving DecidableEq, Repr

/-- `struct.pack("<4BI", kind, b2, b3, b4, ts)`: yields the 8 wire
bytes, or `none` when a field is out of range for its format code
(struct raises `struct.error` in that case). -/
def encode (kind b2 b3 b4 ts : Nat) : Option (List Nat) :=
  if kind < 256 ∧ b2 < 256 ∧ b3 < 256 ∧ b4 < 256 ∧ ts < 4294967296 then
    some [kind, b2, b3, b4,
          ts % 256, ts / 256 % 256, ts / 65536 % 256, ts / 16777216 % 256]
  else
    none

/-- `struct.unpack("<4BI", data)`: requires exactly 8 bytes, returns
the four byte fields and the timestamp reassembled little-endian. -/
def decode (bs : List Nat) : Option Packet :=
  match bs with
  | [k, a, b, c, t0, t1, t2, t3] =>
      some ⟨k, a, b, c, t0 + 256 * t1 + 65536 * t2 + 16777216 * t3⟩
  | _ => none

/-- The mutable state of a `Serial` object.  `connected` models
`self.connection is not None`; `connClosed` records whether
`self.connection.close()` has been called; `recv` is the pending
queue fed by the receiver thread and consumed by `tick`. -/
structure SerialState where
  connected : Bool
  connClosed : Bool
  SB : Nat
  SC : Nat
  trans_bits : Nat
  cycles_count : Nat
  cycles_target : Nat
  is_master : Bool
  timestamp : Nat
  ts_cycles : Nat
  got_version : Bool
  last_received_timestamp : Nat
  recv : List (Nat × Nat)
deriving DecidableEq, Repr

/-- `self.cycles_to_transmit()` (serial.py lines 278-281):
`max(cycles_target - cycles_count, 0)` when a connection exists and
`SC & 0x80` is set, otherwise the sentinel `1 << 16`. -/
def cycles_to_transmit (s : SerialState) : Nat :=
  if s.connected = true ∧ s.SC &&& 0x80 ≠ 0 then
    max (s.cycles_target - s.cycles_count) 0
  else
    1 <<< 16

/-- The packet assembled by `self.send_bit()` (serial.py lines
224-234): kind 104 when master else 105, top bit of SB, current SC,
a zero byte, and the local timestamp. -/
def send_bit_packet (s : SerialState) : Packet :=
  ⟨if s.is_master then 104 else 105, (s.SB >>> 7) &&& 1, s.SC, 0, s.timestamp⟩

/-- The unconditional head of `tick` for a connected device
(serial.py lines 242-253): `cycles_count += cycles`, then
`_ts_cycles += cycles`, and if the accumulator reached `1 << 21`
subtract the window and increment `_timestamp` (a single `if`, no
masking of the timestamp). -/
def tick_pre (s : SerialState) (cycles : Nat) : SerialState :=
  let s1 := {s with cycles_count := s.cycles_count + cycles}
  let s2 := {s1 with ts_cycles := s1.ts_cycles + cycles}
  if s2.ts_cycles ≥ 1 <<< 21 then
    {s2 with ts_cycles := s2.ts_cycles - 1 <<< 21, timestamp := s2.timestamp + 1}
  else
    s2

/-- `self.tick(cycles)` (serial.py lines 236-276).  Returns `none`
when the code would block forever in `self.recv.get()`; otherwise
`some (state, completed, sentPackets)` where `completed` is the
Python return value and `sentPackets` lists the packets sent via
`send_bit` during the call. -/
def tick (s : SerialState) (cycles : Nat) : Option (SerialState × Bool × List Packet) :=
  if s.connected = false then
    some ({s with SB := 0xFF}, false, [])
  else
    let s1 := tick_pre s cycles
    if cycles_to_transmit s1 = 0 then
      if s1.timestamp > s1.last_received_timestamp then
        some (s1, false, [])
      else
        let sent := if (s1.SC >>> 7) &&& 1 = 1 then [send_bit_packet s1] else []
        match s1.recv with
        | [] => none
        | (byte, _ts) :: rest =>
          let s2 := {s1 with recv := rest,
                             SB := ((s1.SB <<< 1) &&& 0xFF) ||| byte,
                             trans_bits := s1.trans_bits + 1,
                             cycles_count := 0}
          if s2.trans_bits = 8 then
            some ({s2 with trans_bits := 0, SC := s2.SC &&& 0x7F}, true, sent)
          else
            some (s2, false, sent)
    else
      some (s1, false, [])

/-- `self._get_status_packet()` (serial.py lines 213-222): kind 108,
running=1, paused=0, supportsReconnect=0, local timestamp. -/
def get_status_packet (s : SerialState) : Packet :=
  ⟨108, 1, 0, 0, s.timestamp⟩

/-- `self._handle_version(major, minor, patch, timestamp)` (serial.py
lines 125-133): raises on a version different from `BGB_VERSION`;
otherwise replies with the status packet on the first call only,
recorded in `_got_version`. -/
def handle_version (s : SerialState) (major minor patch _timestamp : Nat) :
    Except String (SerialState × Option Packet) :=
  if (major, minor, patch) ≠ BGB_VERSION then
    Except.error "BGB version mismatch!"
  else if s.got_version = false then
    Except.ok ({s with got_version := true}, some (get_status_packet s))
  else
    Except.ok (s, none)

/-- `self._client_data_handler(data, timestamp)` (serial.py lines
139-150): computes the outgoing bit `(SB >> 7) & 1`, enqueues the
received `(data, timestamp)` pair, and returns the bit (the guard
returning `None` is commented out in the source, so the result is
always present). -/
def client_data_handler (s : SerialState) (data timestamp : Nat) :
    SerialState × Option Nat :=
  let send_bit := (s.SB >>> 7) &&& 1
  ({s with recv := s.recv ++ [(data, timestamp)]}, some send_bit)

/-- `self._handle_sync1(data, _control, _b4, timestamp)` (serial.py
lines 152-165). -/
def handle_sync1 (s : SerialState) (data _control _b4 timestamp : Nat) :
    SerialState × Option Packet :=
  let (s1, response) := client_data_handler s data timestamp
  match response with
  | some r =>
      (s1, some ⟨if s1.is_master then 104 else 105, r, s1.SC, 0, s1.timestamp⟩)
  | none => (s1, none)

/-- `self._handle_sync2(data, _control, _b4, timestamp)` (serial.py
lines 167-181): the body is textually the same as `_handle_sync1`. -/
def handle_sync2 (s : SerialState) (data _control _b4 timestamp : Nat) :
    SerialState × Option Packet :=
  let (s1, response) := client_data_handler s data timestamp
  match response with
  | some r =>
      (s1, some ⟨if s1.is_master then 104 else 105, r, s1.SC, 0, s1.timestamp⟩)
  | none => (s1, none)

/-- `self._handle_sync3(b2, b3, b4, timestamp)` (serial.py lines
183-193): echo the three bytes under kind 106 with the local
timestamp. -/
def handle_sync3 (s : SerialState) (b2 b3 b4 _timestamp : Nat) : Packet :=
  ⟨106, b2, b3, b4, s.timestamp⟩

/-- Outcome of processing one inbound packet in the receiver loop. -/
inductive RecvOutcome where
  | replied (p : Packet)
  | noReply
  | raised (msg : String)
  | unknownKind
deriving DecidableEq, Repr

/-- One iteration of the receiver loop body after a successful read
(serial.py lines 111-118): update `_last_received_timestamp`
unconditionally, then dispatch on the packet kind through
`self._handlers` (lines 37-45); an uncaught exception from a handler
escapes the loop as `raised`. -/
def recv_step (s : SerialState) (p : Packet) : SerialState × RecvOutcome :=
  let s := {s with last_received_timestamp := p.timestamp}
  if p.b1 = 1 then
    match handle_version s p.b2 p.b3 p.b4 p.timestamp with
    | Except.error m => (s, .raised m)
    | Except.ok (s1, some r) => (s1, .replied r)
    | Except.ok (s1, none) => (s1, .noReply)
  else if p.b1 = 101 then
    (s, .noReply)
  else if p.b1 = 104 then
    match handle_sync1 s p.b2 p.b3 p.b4 p.timestamp with
    | (s1, some r) => (s1, .replied r)
    | (s1, none) => (s1, .noReply)
  else if p.b1 = 105 then
    match handle_sync2 s p.b2 p.b3 p.b4 p.timestamp with
    | (s1, some r) => (s1, .replied r)
    | (s1, none) => (s1, .noReply)
  else if p.b1 = 106 then
    (s, .replied (handle_sync3 s p.b2 p.b3 p.b4 p.timestamp))
  else if p.b1 = 108 then
    (s, .replied (get_status_packet s))
  else if p.b1 = 109 then
    ({s with connClosed := true}, .noReply)
  else
    (s, .unknownKind)

/-- Run the receiver loop over a sequence of matching-version Version
packets (kind 1, version `BGB_VERSION`), one per listed timestamp,
collecting the replies; an exception ends the loop. -/
def processMatchingVersions (s : SerialState) : List Nat → SerialState × List Packet
  | [] => (s, [])
  | ts :: rest =>
    match handle_version s 1 4 0 ts with
    | Except.error _ => (s, [])
    | Except.ok (s1, reply) =>
      let (s2, replies) := processMatchingVersions s1 rest
      (s2, reply.toList ++ replies)

/-- Number of occurrences of `c` in a string's characters, as in
Python's `str.count` for a single character. -/
def countChar (c : Char) (addr : List Char) : Nat :=
  (addr.filter (fun x => x == c)).length

/-- Python's `str.split(sep)` for a one-character separator. -/
def splitOnChar (c : Char) : List Char → List (List Char)
  | [] => [[]]
  | x :: xs =>
    let r := splitOnChar c xs
    if x == c then [] :: r
    else
      match r with
      | y :: ys => (x :: y) :: ys
      | [] => [[x]]

/-- Python's `int(s)` restricted to plain digit strings: `some` of
the value on a non-empty all-digit string, `none` (ValueError)
otherwise. -/
def parseNat (s : List Char) : Option Nat :=
  if s ≠ [] ∧ s.all Char.isDigit then
    some (s.foldl (fun acc c => acc * 10 + (c.toNat - 48)) 0)
  else
    none

/-- The guard at serial.py line 66 exactly as written:
`not serial_address.count(".") == 3 and serial_address.count(":") == 1`.
Python precedence parses this as
`(not (count(".") == 3)) and (count(":") == 1)`. -/
def addr_guard_disables (addr : List Char) : Bool :=
  (!(countChar '.' addr == 3)) && (countChar ':' addr == 1)

/-- Result of the address-handling part of `Serial.__init__`. -/
inductive InitOutcome where
  | disabled
  | connectsTo (ip : List Char) (port : Nat)
  | valueError
deriving DecidableEq, Repr

/-- The address-handling path of `Serial.__init__` (serial.py lines
62-71): empty address disables; the line-66 guard disables; otherwise
`split(":")` must yield exactly two parts (else ValueError from tuple
unpacking) and the port must parse as an int (else ValueError), after
which a connection is attempted. -/
def serialInit (addr : List Char) : InitOutcome :=
  if addr = [] then
    .disabled
  else if addr_guard_disables addr then
    .disabled
  else
    match splitOnChar ':' addr with
    | [ip, port] =>
      match parseNat port with
      | some n => .connectsTo ip n
      | none => .valueError
    | _ => .valueError

/-- A connected example state: transfer armed (`SC` bit 7 set), fresh
counters, empty queue. -/
def exConn : SerialState :=
  { connected := true, connClosed := false, SB := 0, SC := 0x81,
    trans_bits := 0, cycles_count := 0, cycles_target := 514,
    is_master := true, timestamp := 0, ts_cycles := 0,
    got_version := false, last_received_timestamp := 0, recv := [] }

/-- A disabled example state (no connection). -/
def exDisabled : SerialState :=
  { exConn with connected := false }

/-- A state reaching the synchronizer gate: armed, threshold met,
local clock ahead of the peer's. -/
def exAhead : SerialState :=
  { exConn with cycles_count := 514, last_received_timestamp := 0,
                ts_cycles := 2097151 }

/-- A state one cycle from the transfer threshold, peer's clock not
behind, one byte pending in the queue. -/
def exReady : SerialState :=
  { exConn with cycles_count := 513, last_received_timestamp := 10,
                recv := [(1, 4)] }

/-- `exReady` after seven of the eight bit transfers. -/
def exReadyLast : SerialState :=
  { exReady with trans_bits := 7 }

/-- A connected state whose local timestamp sits at the top of the
31-bit range, about to be incremented. -/
def exWrapEdge : SerialState :=
  { exConn with SC := 0, timestamp := 2 ^ 31 - 1 }

/-- C9: For a Disabled device (no connection), `tick` with any
elapsed-cycle count returns "no transfer", pins SB to 0xFF, and never
touches the pending queue (so it cannot block). -/
theorem c9_disabled_tick (s : SerialState) (cycles : Nat)
    (h : s.connected = false) :
    tick s cycles = some ({s with SB := 0xFF}, false, []) ∧
    ({s with SB := 0xFF} : SerialState).recv = s.recv ∧
    ({s with SB := 0xFF} : SerialState).SB = 0xFF := by
  refine ⟨?_, rfl, rfl⟩
  simp [tick, h]

theorem c9_disabled_tick_witness :
    tick exDisabled 100 = some ({exDisabled with SB := 0xFF}, false, []) ∧
    ({exDisabled with SB := 0xFF} : SerialState).recv = exDisabled.recv ∧
    ({exDisabled with SB := 0xFF} : SerialState).SB = 0xFF :=
  c9_disabled_tick exDisabled 100 rfl

/-- C3: The claim that every malformed peer address silently disables
the feature is violated by the code.  The guard at serial.py line 66
parses as `(not dots == 3) and (colons == 1)`, so the address
"1.2.3.4" (three dots, zero colons — not of the required
`x.y.z.w:abcd` form) slips past the guard and then
`address_ip, address_port = serial_address.split(":")` raises a
ValueError to the caller, aborting startup instead of disabling. -/
theorem c3_malformed_address_raises :
    countChar '.' ['1', '.', '2', '.', '3', '.', '4'] = 3 ∧
    countChar ':' ['1', '.', '2', '.', '3', '.', '4'] = 0 ∧
    addr_guard_disables ['1', '.', '2', '.', '3', '.', '4'] = false ∧
    serialInit ['1', '.', '2', '.', '3', '.', '4'] = .valueError := by
  refine ⟨by decide, by decide, by decide, ?_⟩
  decide

/-- C5: The claim that the local timestamp wraps at 2^31 is violated
by the code: `self._timestamp += 1` (serial.py line 253) never masks
the counter, so from a state with `_timestamp = 2^31 - 1` one tick of
2^21 cycles leaves the timestamp at 2^31 — top bit set — instead of
wrapping to 0, contradicting the comment at lines 246-247. -/
theorem c5_timestamp_does_not_wrap :
    exWrapEdge.timestamp = 2 ^ 31 - 1 ∧
    tick exWrapEdge (1 <<< 21) =
      some ({exWrapEdge with cycles_count := 1 <<< 21,
                             timestamp := 2 ^ 31}, false, []) ∧
    ¬ (2 ^ 31 : Nat) < 2 ^ 31 := by
  refine ⟨by decide, ?_, by decide⟩
  decide

/-- C10: The Sync1 and Sync2 handlers are extensionally equal: on
every input and state both enqueue the same `(data, timestamp)` pair
on the pending queue and return the identical reply packet, whose
kind is 104 exactly when this side is master (105 otherwise),
independent of which handler ran. -/
theorem c10_sync1_sync2_equivalent (s : SerialState)
    (data control b4 timestamp : Nat) :
    handle_sync1 s data control b4 timestamp =
      handle_sync2 s data control b4 timestamp ∧
    (handle_sync1 s data control b4 timestamp).1.recv =
      s.recv ++ [(data, timestamp)] ∧
    (handle_sync1 s data control b4 timestamp).2 =
      some ⟨if s.is_master then 104 else 105,
            (s.SB >>> 7) &&& 1, s.SC, 0, s.timestamp⟩ := by
  refine ⟨rfl, ?_, ?_⟩ <;> simp [handle_sync1, client_data_handler]

/-- C1: On a connected device, when the cycle threshold is reached
but the local timestamp has advanced strictly past the last received
one, `tick` returns "no transfer" (`false`), consumes nothing from
the pending queue (hence cannot block), sends no packet, and leaves
`cycles_count` at its accumulated (unreset) value. -/
theorem c1_synchronizer_gate (s : SerialState) (cycles : Nat)
    (hconn : s.connected = true)
    (hthr : cycles_to_transmit (tick_pre s cycles) = 0)
    (hts : (tick_pre s cycles).timestamp > s.last_received_timestamp) :
    tick s cycles = some (tick_pre s cycles, false, []) ∧
    (tick_pre s cycles).recv = s.recv ∧
    (tick_pre s cycles).cycles_count = s.cycles_count + cycles := by
  have hlast : (tick_pre s cycles).last_received_timestamp =
      s.last_received_timestamp := by
    simp only [tick_pre]
    split <;> rfl
  have hrecv : (tick_pre s cycles).recv = s.recv := by
    simp only [tick_pre]
    split <;> rfl
  have hcc : (tick_pre s cycles).cycles_count = s.cycles_count + cycles := by
    simp only [tick_pre]
    split <;> rfl
  refine ⟨?_, hrecv, hcc⟩
  simp only [tick, hconn]
  rw [if_neg (by simp), if_pos hthr, if_pos (hlast ▸ hts)]

theorem c1_synchronizer_gate_witness :
    tick exAhead 1 = some (tick_pre exAhead 1, false, []) ∧
    (tick_pre exAhead 1).recv = exAhead.recv ∧
    (tick_pre exAhead 1).cycles_count = exAhead.cycles_count + 1 :=
  c1_synchronizer_gate exAhead 1 rfl (by decide) (by decide)

/-- C6: On a connected device with a zeroed accumulator, feeding
exactly 2^21 cycles raises the local timestamp by exactly 1 and
leaves the accumulator at 0; feeding 2^21 + 100 raises it by 1 and
leaves the accumulator at 100 (excess carried, not dropped); and the
clock update of `tick_pre` is what every non-blocking `tick` of a
connected device exhibits, whatever the transfer activity. -/
theorem c6_clock_update (s : SerialState)
    (hconn : s.connected = true) (hacc : s.ts_cycles = 0) :
    ((tick_pre s (2 ^ 21)).timestamp = s.timestamp + 1 ∧
     (tick_pre s (2 ^ 21)).ts_cycles = 0) ∧
    ((tick_pre s (2 ^ 21 + 100)).timestamp = s.timestamp + 1 ∧
     (tick_pre s (2 ^ 21 + 100)).ts_cycles = 100) ∧
    (∀ s0 c s1 r sent, s0.connected = true →
      tick s0 c = some (s1, r, sent) →
      s1.timestamp = (tick_pre s0 c).timestamp ∧
      s1.ts_cycles = (tick_pre s0 c).ts_cycles) := by
  refine ⟨?_, ?_, ?_⟩
  · rw [tick_pre]
    rw [if_pos (by simp [hacc])]
    simp [hacc]
  · rw [tick_pre]
    rw [if_pos (by simp [hacc])]
    simp [hacc]
  · intro s0 c s1 r sent h0 htick
    simp only [tick, h0, Bool.true_eq_false, if_false] at htick
    split at htick
    · split at htick
      · simp only [Option.some.injEq, Prod.mk.injEq] at htick
        obtain ⟨h1, -, -⟩ := htick
        subst h1
        exact ⟨rfl, rfl⟩
      · split at htick
        · exact absurd htick (by simp)
        · split at htick
          · simp only [Option.some.injEq, Prod.mk.injEq] at htick
            obtain ⟨h1, -, -⟩ := htick
            subst h1
            exact ⟨rfl, rfl⟩
          · simp only [Option.some.injEq, Prod.mk.injEq] at htick
            obtain ⟨h1, -, -⟩ := htick
            subst h1
            exact ⟨rfl, rfl⟩
    · simp only [Option.some.injEq, Prod.mk.injEq] at htick
      obtain ⟨h1, -, -⟩ := htick
      subst h1
      exact ⟨rfl, rfl⟩

theorem c6_clock_update_witness :
    ((tick_pre exConn (2 ^ 21)).timestamp = exConn.timestamp + 1 ∧
     (tick_pre exConn (2 ^ 21)).ts_cycles = 0) ∧
    ((tick_pre exConn (2 ^ 21 + 100)).timestamp = exConn.timestamp + 1 ∧
     (tick_pre exConn (2 ^ 21 + 100)).ts_cycles = 100) ∧
    (∀ s0 c s1 r sent, s0.connected = true →
      tick s0 c = some (s1, r, sent) →
      s1.timestamp = (tick_pre s0 c).timestamp ∧
      s1.ts_cycles = (tick_pre s0 c).ts_cycles) :=
  c6_clock_update exConn rfl rfl

/-- The accumulation head of `tick` touches only `cycles_count`,
`ts_cycles` and `timestamp`; every other field is unchanged. -/
theorem tick_pre_fields (s : SerialState) (c : Nat) :
    (tick_pre s c).SB = s.SB ∧ (tick_pre s c).SC = s.SC ∧
    (tick_pre s c).trans_bits = s.trans_bits ∧
    (tick_pre s c).recv = s.recv ∧
    (tick_pre s c).last_received_timestamp = s.last_received_timestamp ∧
    (tick_pre s c).cycles_count = s.cycles_count + c := by
  rw [tick_pre]
  split <;> exact ⟨rfl, rfl, rfl, rfl, rfl, rfl⟩

/-- C2: When a connected device's tick reaches the threshold with the
synchronizer ready and a pending item `(byte, t)` at the head of the
queue, the result state has `SB = ((SB <<< 1) &&& 0xFF) ||| byte`,
`cycles_count = 0`, and the head consumed; the returned flag is
`true` exactly when `trans_bits` reaches 8, in which case
`trans_bits` resets to 0 and `SC` bit 7 is cleared, otherwise
`trans_bits` is incremented and the flag is `false`.  Moreover
`trans_bits < 8` (hence `trans_bits ∈ [0,8]`) is preserved by every
non-blocking tick. -/
theorem c2_bit_transfer (s : SerialState) (cycles byte t : Nat)
    (rest : List (Nat × Nat))
    (hconn : s.connected = true)
    (hthr : cycles_to_transmit (tick_pre s cycles) = 0)
    (hts : ¬ (tick_pre s cycles).timestamp > s.last_received_timestamp)
    (hq : s.recv = (byte, t) :: rest) :
    (tick s cycles =
      some (if s.trans_bits + 1 = 8 then
              ({tick_pre s cycles with
                  recv := rest,
                  SB := ((s.SB <<< 1) &&& 0xFF) ||| byte,
                  trans_bits := 0, cycles_count := 0,
                  SC := s.SC &&& 0x7F}, true,
               if (s.SC >>> 7) &&& 1 = 1 then
                 [send_bit_packet (tick_pre s cycles)] else [])
            else
              ({tick_pre s cycles with
                  recv := rest,
                  SB := ((s.SB <<< 1) &&& 0xFF) ||| byte,
                  trans_bits := s.trans_bits + 1, cycles_count := 0}, false,
               if (s.SC >>> 7) &&& 1 = 1 then
                 [send_bit_packet (tick_pre s cycles)] else []))) ∧
    (∀ s0 c s1 r sent, s0.trans_bits < 8 →
      tick s0 c = some (s1, r, sent) → s1.trans_bits < 8) := by
  obtain ⟨hSB, hSC, htb, hrecv, hlast, -⟩ := tick_pre_fields s cycles
  constructor
  · rw [tick, if_neg (by simp [hconn]), if_pos hthr,
        if_neg (by rw [hlast]; exact hts), hrecv, hq]
    simp only [hSB, hSC, htb]
    by_cases h8 : s.trans_bits + 1 = 8
    · rw [if_pos h8, if_pos h8]
    · rw [if_neg h8, if_neg h8]
  · intro s0 c s1 r sent hlt htick
    obtain ⟨-, -, htb0, -, -, -⟩ := tick_pre_fields s0 c
    simp only [tick] at htick
    split at htick
    · simp only [Option.some.injEq, Prod.mk.injEq] at htick
      obtain ⟨h1, -, -⟩ := htick
      subst h1
      exact hlt
    · split at htick
      · split at htick
        · simp only [Option.some.injEq, Prod.mk.injEq] at htick
          obtain ⟨h1, -, -⟩ := htick
          subst h1
          rw [htb0]
          exact hlt
        · split at htick
          · exact absurd htick (by simp)
          · split at htick
            · simp only [Option.some.injEq, Prod.mk.injEq] at htick
              obtain ⟨h1, -, -⟩ := htick
              subst h1
              simp
            · simp only [Option.some.injEq, Prod.mk.injEq] at htick
              obtain ⟨h1, -, -⟩ := htick
              subst h1
              simp only []
              omega
      · simp only [Option.some.injEq, Prod.mk.injEq] at htick
        obtain ⟨h1, -, -⟩ := htick
        subst h1
        exact htb0 ▸ hlt

theorem c2_bit_transfer_witness :
    ((tick exReady 1 =
      some (if exReady.trans_bits + 1 = 8 then
              ({tick_pre exReady 1 with
                  recv := [],
                  SB := ((exReady.SB <<< 1) &&& 0xFF) ||| 1,
                  trans_bits := 0, cycles_count := 0,
                  SC := exReady.SC &&& 0x7F}, true,
               if (exReady.SC >>> 7) &&& 1 = 1 then
                 [send_bit_packet (tick_pre exReady 1)] else [])
            else
              ({tick_pre exReady 1 with
                  recv := [],
                  SB := ((exReady.SB <<< 1) &&& 0xFF) ||| 1,
                  trans_bits := exReady.trans_bits + 1, cycles_count := 0}, false,
               if (exReady.SC >>> 7) &&& 1 = 1 then
                 [send_bit_packet (tick_pre exReady 1)] else []))) ∧
     (∀ s0 c s1 r sent, s0.trans_bits < 8 →
       tick s0 c = some (s1, r, sent) → s1.trans_bits < 8)) :=
  c2_bit_transfer exReady 1 1 4 [] rfl (by decide) (by decide) rfl

/-- C7: For all in-range field values, encoding yields exactly the 8
bytes kind, b2, b3, b4, then the timestamp little-endian, and
decoding those bytes returns exactly the original fields. -/
theorem c7_codec_round_trip (kind b2 b3 b4 ts : Nat)
    (hk : kind < 256) (h2 : b2 < 256) (h3 : b3 < 256) (h4 : b4 < 256)
    (ht : ts < 4294967296) :
    encode kind b2 b3 b4 ts =
      some [kind, b2, b3, b4,
            ts % 256, ts / 256 % 256, ts / 65536 % 256, ts / 16777216 % 256] ∧
    ([kind, b2, b3, b4,
      ts % 256, ts / 256 % 256, ts / 65536 % 256, ts / 16777216 % 256].length
        = 8) ∧
    decode [kind, b2, b3, b4,
            ts % 256, ts / 256 % 256, ts / 65536 % 256, ts / 16777216 % 256] =
      some ⟨kind, b2, b3, b4, ts⟩ := by
  refine ⟨?_, by simp, ?_⟩
  · rw [encode, if_pos ⟨hk, h2, h3, h4, ht⟩]
  · rw [decode]
    congr 1
    congr 1
    omega

theorem c7_codec_round_trip_witness :
    encode 104 1 0x81 0 305419896 =
      some [104, 1, 0x81, 0,
            305419896 % 256, 305419896 / 256 % 256,
            305419896 / 65536 % 256, 305419896 / 16777216 % 256] ∧
    ([104, 1, 0x81, 0,
      305419896 % 256, 305419896 / 256 % 256,
      305419896 / 65536 % 256, 305419896 / 16777216 % 256].length = 8) ∧
    decode [104, 1, 0x81, 0,
            305419896 % 256, 305419896 / 256 % 256,
            305419896 / 65536 % 256, 305419896 / 16777216 % 256] =
      some ⟨104, 1, 0x81, 0, 305419896⟩ :=
  c7_codec_round_trip 104 1 0x81 0 305419896
    (by decide) (by decide) (by decide) (by decide) (by decide)

/-- A run of matching-version packets on a connection whose status
reply was already sent changes nothing and produces no replies. -/
theorem processMatchingVersions_after_ack (s : SerialState)
    (hack : s.got_version = true) :
    ∀ tss, processMatchingVersions s tss = (s, []) := by
  intro tss
  induction tss with
  | nil => rfl
  | cons ts rest ih =>
    rw [processMatchingVersions]
    rw [handle_version, if_neg (by simp [BGB_VERSION]), if_neg (by simp [hack])]
    simp [ih]

/-- C8: A fresh connection receiving any non-empty sequence of
matching-version Version packets sends the Status reply
`{running=1, paused=0, supportsReconnect=0}` for the first packet
only: the run produces exactly that one reply, with
`versionAcknowledged` (`_got_version`) left set. -/
theorem c8_single_status_reply (s : SerialState) (ts : Nat) (rest : List Nat)
    (hfresh : s.got_version = false) :
    processMatchingVersions s (ts :: rest) =
      ({s with got_version := true}, [⟨108, 1, 0, 0, s.timestamp⟩]) := by
  rw [processMatchingVersions]
  rw [handle_version, if_neg (by simp [BGB_VERSION]), if_pos hfresh]
  simp [processMatchingVersions_after_ack {s with got_version := true} rfl rest,
        get_status_packet]

theorem c8_single_status_reply_witness :
    processMatchingVersions exConn [3, 5, 9] =
      ({exConn with got_version := true}, [⟨108, 1, 0, 0, exConn.timestamp⟩]) :=
  c8_single_status_reply exConn 3 [5, 9] rfl

/-- C4 counterexample: on a mismatched Version packet (here version
1.4.1) the receiver raises, but contrary to the claim the link is NOT
closed and the feature is NOT disabled: `connection.close()` is never
called and the connection attribute stays set, so `tick` still treats
the device as connected. -/
theorem c4_mismatch_leaves_link_open :
    (recv_step exConn ⟨1, 1, 4, 1, 0⟩).2 = .raised "BGB version mismatch!" ∧
    (recv_step exConn ⟨1, 1, 4, 1, 0⟩).1.connClosed = false ∧
    (recv_step exConn ⟨1, 1, 4, 1, 0⟩).1.connected = true := by
  refine ⟨?_, ?_, ?_⟩ <;> decide

/-- C4 (amended): on every Version packet whose version differs from
(1,4,0), the handler raises a version-mismatch exception that escapes
the receiver loop (uncaught by its `except` clauses): no Status reply
is sent, `versionAcknowledged` is not set, and the connection is left
open — the state keeps only the unconditional
`lastReceivedTimestamp` update. -/
theorem c4_version_mismatch_raises (s : SerialState)
    (major minor patch ts : Nat) (h : (major, minor, patch) ≠ BGB_VERSION) :
    recv_step s ⟨1, major, minor, patch, ts⟩ =
      ({s with last_received_timestamp := ts},
       .raised "BGB version mismatch!") := by
  simp [recv_step, handle_version, h]

theorem c4_version_mismatch_raises_witness :
    recv_step exConn ⟨1, 1, 4, 1, 7⟩ =
      ({exConn with last_received_timestamp := 7},
       .raised "BGB version mismatch!") :=
  c4_version_mismatch_raises exConn 1 4 1 7 (by decide)

end PyBoySerial
